import Mathlib

/-!
Verification of the SOD_FARM Google-Maps scraper core (src/scrapper/).

Strings from the Python source are shallowly embedded as lists of
characters (`Str`), Python floats as rationals, and the browser/DOM
collaborator as explicit input data (the values its queries would
return).  Every definition below is translated from the corresponding
Python function; doc comments name the source location.
-/

/-- Python strings are modelled as lists of characters. -/
abbrev Str := List Char

/-- Whitespace characters stripped by the Python `str.strip()` method
(ASCII whitespace plus the most common Unicode whitespace code points). -/
def pyIsSpace (c : Char) : Bool :=
  c = ' ' || c = '\t' || c = '\n' || c = '\r' ||
  c.toNat = 0x0b || c.toNat = 0x0c ||
  (0x1c ≤ c.toNat && c.toNat ≤ 0x1f) ||
  c.toNat = 0x85 || c.toNat = 0xa0 || c.toNat = 0x1680 ||
  (0x2000 ≤ c.toNat && c.toNat ≤ 0x200a) ||
  c.toNat = 0x2028 || c.toNat = 0x2029 || c.toNat = 0x202f ||
  c.toNat = 0x205f || c.toNat = 0x3000

/-- Python `str.lstrip()`. -/
def lstripWs (s : Str) : Str := s.dropWhile pyIsSpace

/-- Python `str.rstrip()`. -/
def rstripWs (s : Str) : Str := ((s.reverse).dropWhile pyIsSpace).reverse

/-- Python `str.strip()`. -/
def pyStrip (s : Str) : Str := rstripWs (lstripWs s)

/-- Python `str.startswith(pre)`. -/
def startsWithS (pre s : Str) : Bool := List.isPrefixOf pre s

/-- Python substring containment `pre in s`: decides whether `pre`
occurs contiguously inside `s`. -/
def containsS (pre : Str) : Str → Bool
  | [] => startsWithS pre []
  | c :: rest => startsWithS pre (c :: rest) || containsS pre rest

/-- Python `str.lower()` (ASCII case folding; all the domain constants
involved are ASCII). -/
def toLowerS (s : Str) : Str := s.map Char.toLower

/-- Split a string at the first occurrence of `sep`, Python
`s.split(sep, 1)` when `sep` occurs: returns the parts before and after. -/
def splitOnce (sep : Char) : Str → Option (Str × Str)
  | [] => none
  | c :: rest =>
    if c = sep then some ([], rest)
    else (splitOnce sep rest).map (fun p => (c :: p.1, p.2))

/-- Python `str.split(sep)` for a one-character separator: the empty
string yields `[[]]` like Python's `[""]`. -/
def splitAll (sep : Char) : Str → List Str
  | [] => [[]]
  | c :: rest =>
    match splitAll sep rest with
    | [] => [[]]
    | h :: t => if c = sep then [] :: h :: t else (c :: h) :: t

/-- Value of a hexadecimal digit, accepting both cases
(the Python `urllib` `_hextobyte` table). -/
def hexVal (c : Char) : Option Nat :=
  if '0' ≤ c && c ≤ '9' then some (c.toNat - 48)
  else if 'a' ≤ c && c ≤ 'f' then some (c.toNat - 87)
  else if 'A' ≤ c && c ≤ 'F' then some (c.toNat - 55)
  else none

/-- UTF-8 encoding of one character, as byte values. -/
def utf8Encode (c : Char) : List Nat :=
  let n := c.toNat
  if n < 0x80 then [n]
  else if n < 0x800 then [0xc0 + n / 64, 0x80 + n % 64]
  else if n < 0x10000 then [0xe0 + n / 4096, 0x80 + n / 64 % 64, 0x80 + n % 64]
  else [0xf0 + n / 262144, 0x80 + n / 4096 % 64, 0x80 + n / 64 % 64, 0x80 + n % 64]

/-- Unicode replacement character U+FFFD used by `errors="replace"`. -/
def replChar : Char := Char.ofNat 0xfffd

/-- Whether a byte is a UTF-8 continuation byte. -/
def utf8Cont (b : Nat) : Bool := 0x80 ≤ b && b < 0xc0

/-- Worker for `utf8DecodeRepl`; the fuel argument only bounds the
recursion depth and is always supplied as the byte-list length, which
suffices because every step consumes at least one byte. -/
def utf8DecodeGo : Nat → List Nat → Str
  | 0, _ => []
  | _ + 1, [] => []
  | fuel + 1, b :: rest =>
    if b < 0x80 then Char.ofNat b :: utf8DecodeGo fuel rest
    else if b < 0xc2 then replChar :: utf8DecodeGo fuel rest
    else if b < 0xe0 then
      match rest with
      | b2 :: rest2 =>
        if utf8Cont b2 then Char.ofNat ((b - 0xc0) * 64 + (b2 - 0x80)) :: utf8DecodeGo fuel rest2
        else replChar :: utf8DecodeGo fuel rest
      | [] => [replChar]
    else if b < 0xf0 then
      match rest with
      | b2 :: b3 :: rest3 =>
        if utf8Cont b2 && utf8Cont b3 &&
            !(b = 0xe0 && b2 < 0xa0) && !(b = 0xed && 0xa0 ≤ b2) then
          Char.ofNat ((b - 0xe0) * 4096 + (b2 - 0x80) * 64 + (b3 - 0x80)) :: utf8DecodeGo fuel rest3
        else replChar :: utf8DecodeGo fuel rest
      | _ => replChar :: utf8DecodeGo fuel rest
    else if b < 0xf5 then
      match rest with
      | b2 :: b3 :: b4 :: rest4 =>
        if utf8Cont b2 && utf8Cont b3 && utf8Cont b4 &&
            !(b = 0xf0 && b2 < 0x90) && !(b = 0xf4 && 0x90 ≤ b2) then
          Char.ofNat ((b - 0xf0) * 262144 + (b2 - 0x80) * 4096 +
            (b3 - 0x80) * 64 + (b4 - 0x80)) :: utf8DecodeGo fuel rest4
        else replChar :: utf8DecodeGo fuel rest
      | _ => replChar :: utf8DecodeGo fuel rest
    else replChar :: utf8DecodeGo fuel rest

/-- UTF-8 decoding with replacement of invalid sequences, modelling
Python `bytes.decode("utf-8", errors="replace")` (an invalid leading
byte consumes one byte and yields one replacement character). -/
def utf8DecodeRepl (l : List Nat) : Str := utf8DecodeGo l.length l

/-- Percent-decoding to bytes: a `%` followed by two hex digits becomes
the corresponding byte, everything else contributes its UTF-8 bytes
(Python `urllib.parse.unquote` with the subsequent UTF-8 decode folded
into `utf8DecodeRepl`). -/
def percentDecodeBytes : Str → List Nat
  | [] => []
  | '%' :: a :: b :: rest =>
    match hexVal a, hexVal b with
    | some x, some y => (16 * x + y) :: percentDecodeBytes rest
    | _, _ => utf8Encode '%' ++ percentDecodeBytes (a :: b :: rest)
  | '%' :: rest => utf8Encode '%' ++ percentDecodeBytes rest
  | c :: rest => utf8Encode c ++ percentDecodeBytes rest

/-- Python `urllib.parse.unquote_plus`: `+` becomes a space, then
percent-sequences are decoded as UTF-8 with replacement. -/
def unquotePlus (s : Str) : Str :=
  utf8DecodeRepl (percentDecodeBytes (s.map (fun c => if c = '+' then ' ' else c)))

/-- Python `urllib.parse.parse_qsl` with its defaults
(`keep_blank_values=False`, separator `&`): fields without `=` or with
an empty value are skipped; names and values are `unquote_plus`-decoded. -/
def parseQsl (qs : Str) : List (Str × Str) :=
  (splitAll '&' qs).filterMap fun field =>
    if field = [] then none
    else match splitOnce '=' field with
      | none => none
      | some (n, v) => if v = [] then none else some (unquotePlus n, unquotePlus v)

/-- First value listed under `key` by `urllib.parse.parse_qs`
(`parsed[key][0]` when `key in parsed and parsed[key]`). -/
def parseQsFirst (qs key : Str) : Option Str :=
  ((parseQsl qs).find? (fun p => p.1 = key)).map (fun p => p.2)

/-- Characters allowed after the first character of a URL scheme
(Python `urllib.parse.scheme_chars`). -/
def schemeChar (c : Char) : Bool := c.isAlpha || c.isDigit || c = '+' || c = '-' || c = '.'

/-- Leading-whitespace stripping and unsafe-byte removal performed by
Python `urllib.parse.urlsplit` before parsing: leading C0 control and
space characters are dropped, and all tab, carriage-return and newline
characters are removed. -/
def urlPrep (s : Str) : Str :=
  (s.dropWhile (fun c => c.toNat ≤ 0x20)).filter
    (fun c => !(c = '\t' || c = '\r' || c = '\n'))

/-- Drop a `scheme:` prefix as Python `urlsplit` does: only when a `:`
occurs at a positive index, the first character is an ASCII letter and
the remaining characters before the `:` are scheme characters. -/
def dropScheme (s : Str) : Str :=
  match splitOnce ':' s with
  | none => s
  | some (pre, post) =>
    match pre with
    | [] => s
    | c :: cs => if c.isAlpha && cs.all schemeChar then post else s

/-- Split off the network location as Python `_splitnetloc` does: when
the remainder starts with `//`, the netloc extends to the first
`/`, `?` or `#`. -/
def splitNetloc (s : Str) : Str × Str :=
  if startsWithS ['/', '/'] s then
    let t := s.drop 2
    (t.takeWhile (fun c => !(c = '/' || c = '?' || c = '#')),
     t.dropWhile (fun c => !(c = '/' || c = '?' || c = '#')))
  else ([], s)

/-- Network location and query computed by Python
`urllib.parse.urlparse`; `none` models the `ValueError` raised for a
netloc with unbalanced square brackets. -/
def urlsplitQN (s : Str) : Option (Str × Str) :=
  let u0 := urlPrep s
  let u1 := dropScheme u0
  let (netloc, u2) := splitNetloc u1
  if (netloc.contains '[' && !netloc.contains ']') ||
     (netloc.contains ']' && !netloc.contains '[') then none
  else
    let u3 := match splitOnce '#' u2 with
      | some (pre, _) => pre
      | none => u2
    let query := match splitOnce '?' u3 with
      | some (_, q) => q
      | none => []
    some (netloc, query)

/-!  ## Data model (src/scrapper/models.py)  -/

/-- One place record (src/scrapper/models.py, class `Place`).  Python
floats are modelled as rationals, every field optional as in the
dataclass defaults. -/
structure Place where
  name : Option Str := none
  address : Option Str := none
  phone : Option Str := none
  website : Option Str := none
  image_url : Option Str := none
  rating : Option ℚ := none
  reviews_count : Option Nat := none
  latitude : Option ℚ := none
  longitude : Option ℚ := none
deriving DecidableEq

/-- Model of `Place.has_coordinates` (src/scrapper/models.py lines
46-53): both coordinates set, latitude in [-90, 90] and longitude in
[-180, 180].  The source performs no further check. -/
def Place.has_coordinates (p : Place) : Bool :=
  match p.latitude, p.longitude with
  | some la, some lo =>
    decide ((-90 : ℚ) ≤ la) && decide (la ≤ (90 : ℚ)) &&
    decide ((-180 : ℚ) ≤ lo) && decide (lo ≤ (180 : ℚ))
  | _, _ => false

/-!  ## Coordinate resolver (src/scrapper/extractors.py lines 175-276,
src/scrapper/core.py lines 299-347)

The regex grammars capture decimal literals that always parse, so each
tier is modelled on the list of numeric candidate pairs its regex scan
produces, in the order the source iterates them (URL tier: the first
match of each pattern; content tier: all matches of all patterns in
pattern order; attribute tier: the parsed data attributes per selector). -/

/-- Python `abs` on a rational. -/
def pyAbs (q : ℚ) : ℚ := if q < 0 then -q else q

/-- Range validation shared by every tier:
`-90 <= latitude <= 90 and -180 <= longitude <= 180`. -/
def validRange (la lo : ℚ) : Bool :=
  decide ((-90 : ℚ) ≤ la) && decide (la ≤ (90 : ℚ)) &&
  decide ((-180 : ℚ) ≤ lo) && decide (lo ≤ (180 : ℚ))

/-- Origin rejection used by the content tier only:
`abs(latitude) > 0.001 and abs(longitude) > 0.001`. -/
def nonOrigin (la lo : ℚ) : Bool :=
  decide (mkRat 1 1000 < pyAbs la) && decide (mkRat 1 1000 < pyAbs lo)

/-- Model of `extract_coordinates` (src/scrapper/extractors.py lines
175-276).  Method 1 (URL patterns) accepts the first in-range pair;
method 2 (page-content patterns) accepts the first pair that is both
in range and away from the origin; method 3 (data attributes) accepts
the first in-range pair. -/
def extract_coordinates (urlCands contentCands attrCands : List (ℚ × ℚ)) : Option (ℚ × ℚ) :=
  match urlCands.find? (fun c => validRange c.1 c.2) with
  | some c => some c
  | none =>
    match contentCands.find? (fun c => validRange c.1 c.2 && nonOrigin c.1 c.2) with
    | some c => some c
    | none => attrCands.find? (fun c => validRange c.1 c.2)

/-- Model of `GoogleMapsScraper.extract_coordinates_advanced`
(src/scrapper/core.py lines 315-347): first in-range pair among the
page-content matches, with no origin check. -/
def extract_coordinates_advanced (contentCands : List (ℚ × ℚ)) : Option (ℚ × ℚ) :=
  contentCands.find? (fun c => validRange c.1 c.2)

/-- Model of `GoogleMapsScraper.extract_coordinates_from_url`
(src/scrapper/core.py lines 299-313): the first `/@lat,lng,` match of
the detail-view address, accepted when in range. -/
def extract_coordinates_from_url (urlCand : Option (ℚ × ℚ)) : Option (ℚ × ℚ) :=
  match urlCand with
  | some c => if validRange c.1 c.2 then some c else none
  | none => none

/-!  ## Website URL normalizer (src/scrapper/extractors.py lines 519-557)  -/

/-- Redirect-wrapper marker tested by `clean_website_url`:
the substring `google.com/url?q=`. -/
def redirectMarker : Str := "google.com/url?q=".data

/-- Query key `q` of the redirect wrapper. -/
def qKey : Str := "q".data

/-- Domain denylist of `clean_website_url` (src/scrapper/extractors.py
lines 546-549), matched as substrings of the lowercased netloc. -/
def excludedDomains : List Str :=
  ["google.com".data, "gstatic.com".data, "googleapis.com".data,
   "maps.google.com".data, "youtube.com".data, "facebook.com/tr".data]

/-- Redirect unwrapping step of `clean_website_url`: when the raw URL
contains the wrapper marker, replace it by the first `q` query value;
`none` models the `ValueError` from `urlparse` escaping to the
enclosing `except`, which makes the whole function return `None`. -/
def unwrapRedirect (url : Str) : Option Str :=
  if containsS redirectMarker url then
    match urlsplitQN url with
    | none => none
    | some (_, query) =>
      match parseQsFirst query qKey with
      | some v => some v
      | none => some url
  else some url

/-- Protocol-completion step of `clean_website_url`: prefix `https://`
when the URL starts with `www.` or lacks an `http(s)://` prefix. -/
def ensureScheme (u : Str) : Str :=
  if startsWithS "www.".data u then "https://".data ++ u
  else if startsWithS "http://".data u || startsWithS "https://".data u then u
  else "https://".data ++ u

/-- Final validation of `clean_website_url`: the parsed netloc must be
non-empty, contain a dot, and match no denylisted domain; a parse
`ValueError` fails the validation (the exception path returns `None`). -/
def websiteGuard (u : Str) : Bool :=
  match urlsplitQN u with
  | none => false
  | some (netloc, _) =>
    !netloc.isEmpty && netloc.contains '.' &&
    !(excludedDomains.any (fun d => containsS d (toLowerS netloc)))

/-- Model of `clean_website_url` (src/scrapper/extractors.py lines
519-557): unwrap a Google redirect, strip whitespace, complete the
protocol, then validate the netloc against the denylist. -/
def clean_website_url (url : Str) : Option Str :=
  match unwrapRedirect url with
  | none => none
  | some u1 =>
    let u3 := ensureScheme (pyStrip u1)
    if websiteGuard u3 then some u3 else none

/-- Whether the netloc of a URL matches the platform denylist (the
property `clean_website_url` screens for). -/
def websiteDenylisted (u : Str) : Bool :=
  match urlsplitQN u with
  | none => false
  | some (netloc, _) => excludedDomains.any (fun d => containsS d (toLowerS netloc))

/-!  ## Advanced website extraction (src/scrapper/core.py lines 349-406)

The DOM collaborator is abstracted by the data its queries return:
`hrefs` lists, per selector of strategy 1 and in selector order, the
`href` attribute of the first matching element (`none` when no element
matches or it has no `href`); `revealed` is the href of the first
`a[href^="http"]` link visible after clicking the first present
contact-info button of strategy 2, when any. -/

/-- Model of `GoogleMapsScraper.extract_website_advanced`
(src/scrapper/core.py lines 349-406): return the first href starting
with `http`, unwrapping a Google redirect wrapper but applying no
denylist or further cleaning; fall back to the revealed link. -/
def extract_website_advanced : List (Option Str) → Option Str → Option Str
  | [], revealed => revealed
  | none :: rest, revealed => extract_website_advanced rest revealed
  | some h :: rest, revealed =>
    if startsWithS "http".data h then
      if containsS redirectMarker h then
        match urlsplitQN h with
        | none => extract_website_advanced rest revealed
        | some (_, query) =>
          match parseQsFirst query qKey with
          | some v => some v
          | none => some h
      else some h
    else extract_website_advanced rest revealed

/-!  ## Image URL validation and cleaning
(src/scrapper/extractors.py lines 454-516, src/scrapper/core.py lines 504-551)  -/

/-- Image-indicating substrings accepted by both validity prechecks. -/
def validIndicators : List Str :=
  ["googleusercontent.com".data, "streetviewpixels".data, "places".data,
   "maps.gstatic.com".data, ".jpg".data, ".jpeg".data, ".png".data, ".webp".data]

/-- Denylisted substrings of the primary precheck
(src/scrapper/extractors.py lines 473-478). -/
def invalidIndicators : List Str :=
  ["data:image".data, "blob:".data, "avatar".data, "profile".data]

/-- Scheme precheck shared by both validity checks:
`url.startswith(("http://", "https://", "//"))`. -/
def imageScheme (url : Str) : Bool :=
  startsWithS "http://".data url || startsWithS "https://".data url ||
  startsWithS "//".data url

/-- Model of `is_valid_image_url` (src/scrapper/extractors.py lines
454-486): scheme, at least one image indicator, and none of the
denylisted substrings, all on the lowercased URL. -/
def is_valid_image_url (url : Str) : Bool :=
  if url.isEmpty then false
  else if !imageScheme url then false
  else
    (validIndicators.any (fun d => containsS d (toLowerS url))) &&
    !(invalidIndicators.any (fun d => containsS d (toLowerS url)))

/-- Model of `GoogleMapsScraper.is_valid_image_url`
(src/scrapper/core.py lines 504-522): scheme and at least one image
indicator; this version has no denylist. -/
def core_is_valid_image_url (url : Str) : Bool :=
  if url.isEmpty then false
  else if !imageScheme url then false
  else validIndicators.any (fun d => containsS d (toLowerS url))

/-- Lazy tail of the regex fragment `.*?(?=&|$)` starting at the
current position: the number of characters consumed before a position
whose next character is `&` or which ends the string (`$` also matches
just before a final newline); `none` when an intervening newline makes
the match impossible (`.` does not match newlines). -/
def lazyUpTo : Str → Option Nat
  | [] => some 0
  | c :: rest =>
    if c = '&' then some 0
    else if c = '\n' && rest.isEmpty then some 0
    else if c = '\n' then none
    else (lazyUpTo rest).map (fun k => k + 1)

/-- Suffix remaining after a match of `=s\d+-.*?(?=&|$)` anchored at
the head of the list, when the pattern matches there. -/
def matchSizeS : Str → Option Str
  | '=' :: 's' :: rest =>
    if (rest.takeWhile Char.isDigit).isEmpty then none
    else
      match rest.dropWhile Char.isDigit with
      | '-' :: tail => (lazyUpTo tail).map (fun k => tail.drop k)
      | _ => none
  | _ => none

/-- Suffix remaining after a match of `=w\d+-h\d+.*?(?=&|$)` anchored
at the head of the list, when the pattern matches there. -/
def matchSizeW : Str → Option Str
  | '=' :: 'w' :: rest =>
    if (rest.takeWhile Char.isDigit).isEmpty then none
    else
      match rest.dropWhile Char.isDigit with
      | '-' :: 'h' :: rest2 =>
        if (rest2.takeWhile Char.isDigit).isEmpty then none
        else
          let tail := rest2.dropWhile Char.isDigit
          (lazyUpTo tail).map (fun k => tail.drop k)
      | _ => none
  | _ => none

/-- Worker for `reSub`: left-to-right scan deleting non-overlapping
matches (`re.sub(pattern, "", url)`); the fuel is the string length,
sufficient because every match consumes at least one character. -/
def reSubGo (m : Str → Option Str) : Nat → Str → Str
  | 0, l => l
  | _ + 1, [] => []
  | fuel + 1, c :: rest =>
    match m (c :: rest) with
    | some suffix => reSubGo m fuel suffix
    | none => c :: reSubGo m fuel rest

/-- `re.sub(pattern, "", url)` for an anchored matcher `m`. -/
def reSub (m : Str → Option Str) (s : Str) : Str := reSubGo m s.length s

/-- Whether `re.search(r"=s\d+", url)` finds a match. -/
def hasEqSDigit : Str → Bool
  | c1 :: c2 :: c3 :: rest =>
    (c1 = '=' && c2 = 's' && c3.isDigit) || hasEqSDigit (c2 :: c3 :: rest)
  | _ => false

/-- Protocol-relative completion shared by both image cleaners:
prefix `https:` when the URL starts with `//`. -/
def imageProtoFix (url : Str) : Str :=
  if startsWithS "//".data url then "https:".data ++ url else url

/-- The image CDN host tested by both image cleaners. -/
def cdnHost : Str := "googleusercontent.com".data

/-- Model of `clean_image_url` (src/scrapper/extractors.py lines
489-516): complete the protocol; on the image CDN strip both
size-restriction grammars, then append `=s800` when the URL has no
`=`, or `&s=800` when it has one but no `=s<digits>` fragment. -/
def clean_image_url (url : Str) : Option Str :=
  if url.isEmpty then none
  else
    let u1 := imageProtoFix url
    if containsS cdnHost u1 then
      let u2 := reSub matchSizeW (reSub matchSizeS u1)
      if !u2.contains '=' then some (u2 ++ "=s800".data)
      else if !hasEqSDigit u2 then some (u2 ++ "&s=800".data)
      else some u2
    else some u1

/-- Model of `GoogleMapsScraper.clean_image_url` (src/scrapper/core.py
lines 524-551): same protocol completion and size stripping, but
append `=s1000` when the URL has no `=` and `&s=1000` otherwise,
unconditionally. -/
def core_clean_image_url (url : Str) : Option Str :=
  if url.isEmpty then none
  else
    let u1 := imageProtoFix url
    if containsS cdnHost u1 then
      let u2 := reSub matchSizeW (reSub matchSizeS u1)
      if !u2.contains '=' then some (u2 ++ "=s1000".data)
      else some (u2 ++ "&s=1000".data)
    else some u1

/-!  ## Listing pager (src/scrapper/core.py lines 142-183)

The rendered-result count is abstracted as a function from the number
of scroll gestures already performed to the count the subsequent
re-count observes.  One record field per observable event of the loop. -/

/-- Outcome of the scroll loop of `scrape_places` (src/scrapper/core.py
lines 151-183). -/
structure PagerOut where
  /-- Number of scroll gestures performed (loop iterations entered). -/
  gestures : Nat
  /-- The `no_new_results_count` values at which the corrective sidebar
  scroll was attempted, in order (the source fires it when that counter
  becomes exactly 2). -/
  correctiveAt : List Nat
  /-- Final value of `no_new_results_count`. -/
  finalNoNew : Nat
  /-- Loop left because `scroll_attempts` reached the hard cap of 30. -/
  hitCap : Bool
  /-- Loop left because the rendered count reached the target. -/
  reachedTarget : Bool
  /-- Loop left because of 5 consecutive no-growth scrolls. -/
  stagnated : Bool
deriving DecidableEq

/-- One-to-one model of the scroll loop: `fuel` plays the role of
`max_scroll_attempts - scroll_attempts` (the guard
`scroll_attempts < 30` with `scroll_attempts` incremented only by
completed iterations), `prev` is `previously_counted`, `noNew` is
`no_new_results_count`, `g` counts gestures and `corr` records
corrective attempts. -/
def pagerLoop (f : Nat → Nat) (total : Nat) : Nat → Nat → Nat → Nat → List Nat → PagerOut
  | 0, _, noNew, g, corr => ⟨g, corr, noNew, true, false, false⟩
  | fuel + 1, prev, noNew, g, corr =>
    let found := f g
    if total ≤ found then ⟨g + 1, corr, noNew, false, true, false⟩
    else if found = prev then
      let n := noNew + 1
      let corr' := if n = 2 then corr ++ [n] else corr
      if 5 ≤ n then ⟨g + 1, corr', n, false, false, true⟩
      else pagerLoop f total fuel found n (g + 1) corr'
    else pagerLoop f total fuel found 0 (g + 1) corr

/-- The scroll loop as entered by `scrape_places`:
`previously_counted = 0`, `scroll_attempts = 0`,
`max_scroll_attempts = 30`, `no_new_results_count = 0`. -/
def runPager (f : Nat → Nat) (total : Nat) : PagerOut :=
  pagerLoop f total 30 0 0 0 []

/-!  ## Name extraction and acceptance
(src/scrapper/extractors.py lines 46-69, src/scrapper/core.py lines 265-269)  -/

/-- Model of `extract_name` (src/scrapper/extractors.py lines 46-69):
per selector, the text content of the first matching element (`none`
when the selector matches nothing); the first non-empty stripped text
wins, with the sentinel `Unknown` as the default. -/
def extract_name (texts : List (Option Str)) : Str :=
  match (texts.filterMap id).find? (fun t => !(pyStrip t).isEmpty) with
  | some t => pyStrip t
  | none => "Unknown".data

/-- Name values that make the orchestrator discard a candidate
(src/scrapper/core.py line 265): a missing name, the empty string, or
the sentinels `Unknown` and `Failed to extract`. -/
def nameRejected : Option Str → Bool
  | none => true
  | some s => s.isEmpty || s = "Unknown".data || s = "Failed to extract".data

/-!  ## Scrape orchestrator (src/scrapper/core.py lines 118-297)

The environment carries the outcome of every collaborator interaction:
whether navigation, the search submission and the bounded wait for the
first result link succeed, the rendered counts seen by the scroll
loop, and per revealed candidate the click outcome, the place the
primary extraction pass produces, and the values the advanced second
passes would return. -/

/-- Per-candidate collaborator outcomes. -/
structure Candidate where
  /-- Some of the 3 click attempts on the listing succeeds. -/
  clickOk : Bool
  /-- Place produced by `extract_place`; `none` models a per-candidate
  exception escaping to the loop's `except`, which skips the candidate. -/
  extracted : Option Place
  /-- In-range parse of `/@lat,lng,` from the detail-view address
  (`extract_coordinates_from_url`), when the pattern matches. -/
  urlCoords : Option (ℚ × ℚ)
  /-- Result of `extract_coordinates_advanced` when invoked. -/
  advCoords : Option (ℚ × ℚ)
  /-- Result of `extract_website_advanced` when invoked. -/
  advWebsite : Option Str
  /-- Result of `extract_image_advanced` when invoked. -/
  advImage : Option Str
deriving DecidableEq

/-- Environment of one `scrape_places` run. -/
structure ScrapeEnv where
  /-- `page.goto` succeeds. -/
  navOk : Bool
  /-- Filling the search box and pressing Enter succeed. -/
  searchOk : Bool
  /-- The bounded `wait_for_selector` for a result link succeeds. -/
  waitOk : Bool
  /-- Rendered-result count observed after each scroll gesture. -/
  counts : Nat → Nat
  /-- Revealed listing handles with their per-candidate outcomes, in
  reveal order. -/
  candidates : List Candidate

/-- Error abstracting the exceptions that can reach the top-level
`except` of `scrape_places`. -/
inductive ScrapeErr
  | navigate
  | search
deriving DecidableEq

/-- Coordinate patch applied when a pair was obtained
(src/scrapper/core.py lines 235-247). -/
def patchCoords (p : Place) (c : Option (ℚ × ℚ)) : Place :=
  match c with
  | some q => { p with latitude := some q.1, longitude := some q.2 }
  | none => p

/-- Field patching the orchestrator applies to the place produced by
the primary extraction pass (src/scrapper/core.py lines 227-263):
URL-coordinate override, then advanced coordinate / website / image
second passes, each only when the field is still missing. -/
def candidatePatched (c : Candidate) (p0 : Place) : Place :=
  let p1 := patchCoords p0 c.urlCoords
  let p2 := if !p1.has_coordinates then patchCoords p1 c.advCoords else p1
  let p3 := if p2.website.isNone then
      match c.advWebsite with
      | some w => { p2 with website := some w }
      | none => p2
    else p2
  if p3.image_url.isNone then
    match c.advImage with
    | some i => { p3 with image_url := some i }
    | none => p3
  else p3

/-- Per-candidate processing of the orchestrator loop
(src/scrapper/core.py lines 199-289): click with retries, primary
extraction, the patches above, then name validation; `none` means the
candidate is skipped or discarded. -/
def processCandidate (c : Candidate) : Option Place :=
  if !c.clickOk then none
  else
    match c.extracted with
    | none => none
    | some p0 =>
      if nameRejected (candidatePatched c p0).name then none
      else some (candidatePatched c p0)

/-- Candidate loop of the orchestrator (src/scrapper/core.py lines
194-289): before each candidate the accepted count is checked against
the target, and accepted places are appended in order. -/
def processLoop (total : Nat) : List Candidate → List Place → List Place
  | [], acc => acc
  | c :: rest, acc =>
    if total ≤ acc.length then acc
    else
      match processCandidate c with
      | none => processLoop total rest acc
      | some p => processLoop total rest (acc ++ [p])

/-- Body of `scrape_places` (src/scrapper/core.py lines 118-297) with
its exception flow made explicit: the failure of navigation or search
raises out of the body (to be caught once at the top level), the
results-wait timeout is caught inside the body and returns the places
collected so far, and per-candidate failures are absorbed by
`processCandidate`.  The scroll loop (`runPager`) only reveals
listings; the listing handles the loop ends up with are
`env.candidates`, of which the first `min(int(total * 1.5), count)`
are processed. -/
def scrapeBody (env : ScrapeEnv) (total : Nat) : List Place × Option ScrapeErr :=
  if !env.navOk then ([], some ScrapeErr.navigate)
  else if !env.searchOk then ([], some ScrapeErr.search)
  else if !env.waitOk then ([], none)
  else
    let listings := env.candidates.take (min (3 * total / 2) env.candidates.length)
    (processLoop total listings [], none)

/-- Model of `scrape_places` (src/scrapper/core.py lines 118-297): the
top-level `except` swallows any error from the body and the function
returns the collected places on every path. -/
def scrape_places_model (env : ScrapeEnv) (total : Nat) : List Place :=
  (scrapeBody env total).1

/-!  ## Concrete evaluation inputs used by the theorems below  -/

/-- A record whose coordinates are exactly (0, 0). -/
def originPlace : Place := { latitude := some 0, longitude := some 0 }

/-- A maps link of the host platform itself, as strategy 1 of the
advanced website extraction can pick up from `.rogA2c a[href^="http"]`. -/
def mapsHref : Str := "https://www.google.com/maps/place/foo".data

/-- A candidate whose primary pass finds no website and whose advanced
website pass returns the platform link above. -/
def mapsCandidate : Candidate :=
  { clickOk := true,
    extracted := some { name := some "Joe Sod Farm".data },
    urlCoords := none,
    advCoords := none,
    advWebsite := extract_website_advanced [some mapsHref] none,
    advImage := none }

/-- Environment producing one accepted record patched by the advanced
website pass. -/
def mapsEnv : ScrapeEnv :=
  { navOk := true, searchOk := true, waitOk := true,
    counts := fun _ => 1, candidates := [mapsCandidate] }

/-- The record the run above appends. -/
def mapsPlace : Place :=
  { name := some "Joe Sod Farm".data, website := some mapsHref }

/-- An avatar image hosted on the platform image CDN. -/
def avatarUrl : Str := "https://googleusercontent.com/p/avatar.jpg".data

/-- A CDN image reference without any query fragment. -/
def plainCdnUrl : Str := "https://googleusercontent.com/p/X".data

/-- A doubly wrapped redirect URL: its unwrapped target still contains
the wrapper marker in its path together with a parseable `q` value. -/
def doubleWrapped : Str :=
  "https://google.com/url?q=https://example.com/google.com/url?q=https://evil.com".data

/-- Normalization result of `doubleWrapped`: a valid external URL that
still contains the wrapper marker. -/
def doubleWrappedOut : Str :=
  "https://example.com/google.com/url?q=https://evil.com".data

/-- A simply wrapped redirect URL whose target is marker-free. -/
def simpleWrapped : Str := "https://www.google.com/url?q=https://example.com".data

/-- Normalization result of `simpleWrapped`. -/
def simpleWrappedOut : Str := "https://example.com".data

/-- Environment with one well-formed candidate, used to instantiate
the record-invariant theorems. -/
def oneGoodEnv : ScrapeEnv :=
  { navOk := true, searchOk := true, waitOk := true,
    counts := fun _ => 1,
    candidates := [{ clickOk := true,
                     extracted := some { name := some "Ace Sod".data },
                     urlCoords := some (37, -122),
                     advCoords := none, advWebsite := none, advImage := none }] }

/-- The record `oneGoodEnv` produces. -/
def oneGoodPlace : Place :=
  { name := some "Ace Sod".data, latitude := some 37, longitude := some (-122) }

/-- An image URL outside the platform CDN. -/
def offCdnUrl : Str := "https://example.com/a.jpg".data

/-!  ## Theorems  -/

/-- C1 counterexample: a record whose stored coordinates are exactly
(0, 0) nevertheless satisfies `has_coordinates`, so the claimed
"and the pair is not exactly (0,0)" clause does not hold of the code. -/
theorem c1_origin_counterexample :
    originPlace.latitude = some 0 ∧ originPlace.longitude = some 0 ∧
    originPlace.has_coordinates = true := by decide

/-- C1 (amended): `Place.has_coordinates` holds iff both latitude and
longitude are set, latitude is in [-90, 90] and longitude is in
[-180, 180]; the pair (0, 0) is not excluded. -/
theorem c1_has_coordinates_iff (p : Place) :
    p.has_coordinates = true ↔
    ∃ la lo : ℚ, p.latitude = some la ∧ p.longitude = some lo ∧
      -90 ≤ la ∧ la ≤ 90 ∧ -180 ≤ lo ∧ lo ≤ 180 := by
  cases hla : p.latitude with
  | none => simp [Place.has_coordinates, hla]
  | some la =>
    cases hlo : p.longitude with
    | none => simp [Place.has_coordinates, hla, hlo]
    | some lo => simp [Place.has_coordinates, hla, hlo, and_assoc]

/-- C3 counterexample: the URL tier and the attribute tier accept the
pair (0, 0), and so does the advanced content scan of the orchestrator;
only the primary content tier rejects it. -/
theorem c3_origin_counterexample :
    extract_coordinates [(0, 0)] [] [] = some (0, 0) ∧
    extract_coordinates [] [] [(0, 0)] = some (0, 0) ∧
    extract_coordinates_advanced [(0, 0)] = some (0, 0) ∧
    extract_coordinates [] [(0, 0)] [] = none := by decide

/-- C3 (amended): every pair the coordinate resolver returns is
range-validated, but only the embedded-content tier additionally
rejects pairs within epsilon of the origin; the URL tier, the
attribute tier and the advanced content scan validate range only. -/
theorem c3_tier_validation (uC cC aC : List (ℚ × ℚ)) :
    (extract_coordinates uC cC aC).all (fun c => validRange c.1 c.2) = true ∧
    (extract_coordinates [] cC []).all
      (fun c => validRange c.1 c.2 && nonOrigin c.1 c.2) = true ∧
    (extract_coordinates_advanced cC).all (fun c => validRange c.1 c.2) = true := by
  refine ⟨?_, ?_, ?_⟩
  · unfold extract_coordinates
    cases h1 : uC.find? (fun c => validRange c.1 c.2) with
    | some c => simpa using List.find?_some h1
    | none =>
      cases h2 : cC.find? (fun c => validRange c.1 c.2 && nonOrigin c.1 c.2) with
      | some c =>
        have := List.find?_some h2
        simp only [Bool.and_eq_true] at this
        simpa using this.1
      | none =>
        cases h3 : aC.find? (fun c => validRange c.1 c.2) with
        | some c => simpa using List.find?_some h3
        | none => simp
  · unfold extract_coordinates
    simp only [List.find?_nil]
    cases h2 : cC.find? (fun c => validRange c.1 c.2 && nonOrigin c.1 c.2) with
    | some c => simpa using List.find?_some h2
    | none => simp
  · unfold extract_coordinates_advanced
    cases h : cC.find? (fun c => validRange c.1 c.2) with
    | some c => simpa using List.find?_some h
    | none => simp

/-- C4 counterexample: the advanced-pass precheck in core.py accepts a
CDN-hosted avatar URL that contains the denylisted substring `avatar`,
which the primary precheck rejects. -/
theorem c4_avatar_counterexample :
    core_is_valid_image_url avatarUrl = true ∧
    containsS "avatar".data (toLowerS avatarUrl) = true ∧
    is_valid_image_url avatarUrl = false := by decide

/-- C4 (amended): the primary precheck requires the scheme, an image
indicator and the absence of every denylisted substring; the
advanced-pass precheck is exactly the same check without the denylist
conjunct. -/
theorem c4_precheck_relation (u : Str) :
    is_valid_image_url u =
      (core_is_valid_image_url u &&
       !(invalidIndicators.any (fun d => containsS d (toLowerS u)))) := by
  by_cases h1 : u.isEmpty <;> by_cases h2 : imageScheme u <;>
    simp [is_valid_image_url, core_is_valid_image_url, h1, h2]

/-- C5 counterexample: on a CDN image URL without a query fragment the
primary cleaner appends `=s800` while the advanced cleaner appends
`=s1000`, so the two cleaning functions differ. -/
theorem c5_clean_image_divergence :
    clean_image_url plainCdnUrl = some (plainCdnUrl ++ "=s800".data) ∧
    core_clean_image_url plainCdnUrl = some (plainCdnUrl ++ "=s1000".data) ∧
    plainCdnUrl ++ "=s800".data ≠ plainCdnUrl ++ "=s1000".data := by decide

/-- C5 (amended): the two image cleaners agree on every URL not hosted
on the platform image CDN, but diverge on CDN URLs, where the primary
pass requests size 800 (skipping the request when an `=s<digits>`
fragment is already present) and the advanced pass always requests
size 1000. -/
theorem c5_clean_image_agree_off_cdn (u : Str)
    (h : containsS cdnHost (imageProtoFix u) = false) :
    clean_image_url u = core_clean_image_url u := by
  by_cases he : u.isEmpty <;>
    simp [clean_image_url, core_clean_image_url, he, h]

/-- C5 witness: a non-CDN URL on which the two cleaners agree. -/
theorem c5_clean_image_agree_off_cdn_witness :
    containsS cdnHost (imageProtoFix offCdnUrl) = false ∧
    clean_image_url offCdnUrl = core_clean_image_url offCdnUrl :=
  ⟨by decide, c5_clean_image_agree_off_cdn offCdnUrl (by decide)⟩

/-- C2 counterexample: a run whose advanced website pass picks up a
maps link of the host platform appends a record whose website netloc
matches the denylist, because `extract_website_advanced` stores the
raw href without the denylist filtering of `clean_website_url`. -/
theorem c2_advanced_website_counterexample :
    scrape_places_model mapsEnv 1 = [mapsPlace] ∧
    mapsPlace.website = some mapsHref ∧
    websiteDenylisted mapsHref = true := by decide

/-- Helper: a URL that passes the final validation of
`clean_website_url` has no denylisted netloc. -/
theorem websiteDenylisted_false_of_guard (v : Str) (h : websiteGuard v = true) :
    websiteDenylisted v = false := by
  unfold websiteGuard at h
  unfold websiteDenylisted
  cases hq : urlsplitQN v with
  | none => rfl
  | some p =>
    rw [hq] at h
    obtain ⟨netloc, q⟩ := p
    simp only [Bool.and_eq_true, Bool.not_eq_true'] at h
    exact h.2

/-- C2 (amended): every website produced by the primary normalization
pass (`clean_website_url`) has a netloc matching no denylisted domain;
the advanced second pass stores the raw href without this check, so
only records whose website came from the primary pass are guaranteed
clean. -/
theorem c2_primary_website_not_denylisted (u : Str) :
    (clean_website_url u).all (fun v => !websiteDenylisted v) = true := by
  unfold clean_website_url
  cases h1 : unwrapRedirect u with
  | none => rfl
  | some u1 =>
    by_cases hg : websiteGuard (ensureScheme (pyStrip u1))
    · simp only [hg, if_true, Option.all_some]
      simp [websiteDenylisted_false_of_guard _ hg]
    · simp [hg]

/-- Helper: the number of scroll gestures the pager loop performs is
bounded by the remaining fuel. -/
theorem pagerLoop_gestures_le (f : Nat → Nat) (total : Nat) :
    ∀ fuel prev noNew g corr,
      (pagerLoop f total fuel prev noNew g corr).gestures ≤ g + fuel := by
  intro fuel
  induction fuel with
  | zero => intro prev noNew g corr; simp [pagerLoop]
  | succ n ih =>
    intro prev noNew g corr
    simp only [pagerLoop]
    split
    · simp
    · split
      · split
        · simp
        · exact le_trans (ih _ _ _ _) (by omega)
      · exact le_trans (ih _ _ _ _) (by omega)

/-- Helper: once the loop state has `previously_counted` equal to the
constant rendered count (below target) and fewer than 5 accumulated
no-growth scrolls, the loop runs exactly `5 - noNew` more gestures,
fires the corrective action exactly when the counter becomes 2, and
exits by stagnation. -/
theorem pagerLoop_const_stagnates (total c : Nat) (h : ¬ total ≤ c) :
    ∀ fuel k g corr, k < 5 → 5 ≤ fuel + k →
      pagerLoop (fun _ => c) total fuel c k g corr =
        ⟨g + (5 - k), corr ++ (if k < 2 then [2] else []), 5, false, false, true⟩ := by
  intro fuel
  induction fuel with
  | zero => intro k g corr hk hf; omega
  | succ n ih =>
    intro k g corr hk hf
    by_cases h5 : 5 ≤ k + 1
    · have hk4 : k = 4 := by omega
      subst hk4
      simp [pagerLoop, h, h5]
    · simp only [pagerLoop, h, if_false, eq_self_iff_true, if_true]
      rw [if_neg h5]
      rw [ih (k + 1) (g + 1) _ (by omega) (by omega)]
      have hg5 : g + 1 + (5 - (k + 1)) = g + (5 - k) := by omega
      rw [hg5]
      rcases Nat.lt_or_ge k 1 with hk0 | hk1
      · have : k = 0 := by omega
        subst this
        simp
      · rcases Nat.lt_or_ge k 2 with hk1a | hk2
        · have : k = 1 := by omega
          subst this
          simp
        · simp [Nat.not_lt.mpr hk2, show ¬ k + 1 = 2 by omega, show ¬ k + 1 < 2 by omega]

/-- Helper: one unfolding of the scroll loop when the rendered count
is below target and differs from the previous count. -/
theorem pagerLoop_succ_ne (f : Nat → Nat) (total fuel prev noNew g : Nat) (corr : List Nat)
    (hle : ¬ total ≤ f g) (hne : ¬ f g = prev) :
    pagerLoop f total (fuel + 1) prev noNew g corr =
      pagerLoop f total fuel (f g) 0 (g + 1) corr := by
  simp [pagerLoop, hle, hne]

/-- C6 (confirmed): with a rendered count that stays constant below
the target, the scroll loop exits by stagnation (neither the cap nor
the target exit), with a final no-growth counter of exactly 5, exactly
one corrective sidebar-scroll attempt fired when that counter reached
2, and 5 scroll gestures (6 when the constant count is nonzero, whose
first observation resets the counter); moreover any run of the loop
performs at most 30 scroll gestures. -/
theorem c6_pager_stagnation (total c : Nat) (f : Nat → Nat) (t : Nat) (h : c < total) :
    runPager (fun _ => c) total =
      ⟨(if c = 0 then 5 else 6), [2], 5, false, false, true⟩ ∧
    (runPager f t).gestures ≤ 30 := by
  have hle : ¬ total ≤ c := Nat.not_le.mpr h
  constructor
  · unfold runPager
    by_cases hc : c = 0
    · subst hc
      rw [pagerLoop_const_stagnates total 0 hle 30 0 0 [] (by omega) (by omega)]
      simp
    · rw [show (30 : Nat) = 29 + 1 from rfl,
        pagerLoop_succ_ne (fun _ => c) total 29 0 0 0 [] hle hc]
      rw [pagerLoop_const_stagnates total c hle 29 0 1 [] (by omega) (by omega)]
      simp [hc]
  · exact le_trans (pagerLoop_gestures_le f t 30 0 0 0 []) (by omega)

/-- C6 witness: the stagnation behaviour at target 1 with an empty
list, and the gesture cap for a concrete growing list. -/
theorem c6_pager_stagnation_witness :
    0 < 1 ∧
    (runPager (fun _ => 0) 1 =
      ⟨(if 0 = 0 then 5 else 6), [2], 5, false, false, true⟩ ∧
     (runPager (fun i => i) 3).gestures ≤ 30) :=
  ⟨by decide, c6_pager_stagnation 1 0 (fun i => i) 3 (by decide)⟩

/-- C8 (confirmed): a run whose bounded wait for the first result link
times out returns the empty collection, a run whose navigation or
search raises returns the empty collection after the single top-level
catch, and in general the public entry point returns exactly the
places the body accumulated, never propagating the body error. -/
theorem c8_error_handling (env : ScrapeEnv) (total : Nat) :
    scrape_places_model { env with waitOk := false } total = [] ∧
    scrape_places_model { env with navOk := false } total = [] ∧
    scrape_places_model { env with searchOk := false } total = [] ∧
    scrape_places_model env total = (scrapeBody env total).1 := by
  refine ⟨?_, ?_, ?_, rfl⟩
  · unfold scrape_places_model scrapeBody
    by_cases h1 : env.navOk <;> by_cases h2 : env.searchOk <;> simp [h1, h2]
  · unfold scrape_places_model scrapeBody
    simp
  · unfold scrape_places_model scrapeBody
    by_cases h1 : env.navOk <;> simp [h1]

/-- Helper: a candidate the orchestrator accepts never carries a
rejected name. -/
theorem processCandidate_name (c : Candidate) (p : Place)
    (h : processCandidate c = some p) : nameRejected p.name = false := by
  unfold processCandidate at h
  split at h
  · exact absurd h (by simp)
  · split at h
    · exact absurd h (by simp)
    · split at h
      · exact absurd h (by simp)
      · rename_i hn
        obtain rfl := Option.some.inj h
        simpa using hn

/-- Helper: every place the candidate loop adds to an accumulator of
valid-name places has a valid name. -/
theorem processLoop_names (total : Nat) :
    ∀ (cands : List Candidate) (acc : List Place),
      (∀ p ∈ acc, nameRejected p.name = false) →
      ∀ p ∈ processLoop total cands acc, nameRejected p.name = false := by
  intro cands
  induction cands with
  | nil => intro acc hacc p hp; exact hacc p hp
  | cons c rest ih =>
    intro acc hacc p hp
    unfold processLoop at hp
    by_cases hlen : total ≤ acc.length
    · rw [if_pos hlen] at hp; exact hacc p hp
    · rw [if_neg hlen] at hp
      cases hpc : processCandidate c with
      | none => rw [hpc] at hp; exact ih acc hacc p hp
      | some q =>
        rw [hpc] at hp
        refine ih (acc ++ [q]) ?_ p hp
        intro r hr
        rcases List.mem_append.mp hr with hr1 | hr2
        · exact hacc r hr1
        · rw [List.mem_singleton.mp hr2]
          exact processCandidate_name c q hpc

/-- C9 (confirmed): every record in the output collection carries a
name that is a non-empty string different from both reserved sentinel
values; candidates with an empty or sentinel name are discarded. -/
theorem c9_accepted_names_valid (env : ScrapeEnv) (total : Nat) (p : Place)
    (hp : p ∈ scrape_places_model env total) :
    ∃ s, p.name = some s ∧ s ≠ [] ∧
      s ≠ "Unknown".data ∧ s ≠ "Failed to extract".data := by
  have hname : nameRejected p.name = false := by
    unfold scrape_places_model scrapeBody at hp
    by_cases h1 : env.navOk
    · by_cases h2 : env.searchOk
      · by_cases h3 : env.waitOk
        · simp only [h1, h2, h3, Bool.not_true, Bool.false_eq_true, if_false] at hp
          exact processLoop_names total _ [] (by simp) p hp
        · simp [h1, h2, h3] at hp
      · simp [h1, h2] at hp
    · simp [h1] at hp
  cases hs : p.name with
  | none => rw [hs] at hname; simp [nameRejected] at hname
  | some s =>
    rw [hs] at hname
    refine ⟨s, rfl, ?_, ?_, ?_⟩ <;> intro hcon <;> subst hcon <;>
      exact absurd hname (by decide)

/-- C9 witness: a run with one well-formed candidate yields a record
whose name is valid. -/
theorem c9_accepted_names_valid_witness :
    ∃ s, oneGoodPlace.name = some s ∧ s ≠ [] ∧
      s ≠ "Unknown".data ∧ s ≠ "Failed to extract".data :=
  c9_accepted_names_valid oneGoodEnv 1 oneGoodPlace (by decide)

/-- Helper: the candidate loop never grows the accumulator past the
target. -/
theorem processLoop_length (total : Nat) :
    ∀ (cands : List Candidate) (acc : List Place),
      acc.length ≤ total → (processLoop total cands acc).length ≤ total := by
  intro cands
  induction cands with
  | nil => intro acc hacc; exact hacc
  | cons c rest ih =>
    intro acc hacc
    unfold processLoop
    by_cases hlen : total ≤ acc.length
    · rw [if_pos hlen]; exact hacc
    · rw [if_neg hlen]
      cases hpc : processCandidate c with
      | none => exact ih acc hacc
      | some q =>
        refine ih (acc ++ [q]) ?_
        simp
        omega

/-- C10 (confirmed): with a positive target, the output collection
never holds more than `total` records, because the loop checks the
accepted count before processing each candidate. -/
theorem c10_output_length_le (env : ScrapeEnv) (total : Nat) (_h : 0 < total) :
    (scrape_places_model env total).length ≤ total := by
  unfold scrape_places_model scrapeBody
  by_cases h1 : env.navOk <;> by_cases h2 : env.searchOk <;> by_cases h3 : env.waitOk <;>
    simp [h1, h2, h3]
  exact processLoop_length total _ [] (by simp)

/-- C10 witness: the bound at target 1 on a concrete run. -/
theorem c10_output_length_le_witness :
    0 < 1 ∧ (scrape_places_model oneGoodEnv 1).length ≤ 1 :=
  ⟨by decide, c10_output_length_le oneGoodEnv 1 (by decide)⟩

theorem head_dropWhile_false {p : Char → Bool} {l : Str} {c : Char} {z : Str}
    (h : l.dropWhile p = c :: z) : p c = false := by
  have := List.head?_dropWhile_not p l
  rw [h] at this
  simpa using this

theorem dropWhile_cons_of_false {p : Char → Bool} {c : Char} {l : Str}
    (h : p c = false) : (c :: l).dropWhile p = c :: l := by
  simp [List.dropWhile_cons, h]

theorem pyStrip_reverse_eq (t : Str) :
    (pyStrip t).reverse = (lstripWs t).reverse.dropWhile pyIsSpace := by
  unfold pyStrip rstripWs
  rw [List.reverse_reverse]

theorem pyStrip_of_stripped (v : Str)
    (hhead : ∀ c z, v = c :: z → pyIsSpace c = false)
    (hlast : ∀ c z, v.reverse = c :: z → pyIsSpace c = false) :
    pyStrip v = v := by
  unfold pyStrip rstripWs lstripWs
  have h1 : v.dropWhile pyIsSpace = v := by
    cases hv : v with
    | nil => simp
    | cons c z => exact dropWhile_cons_of_false (hhead c z hv)
  rw [h1]
  have h2 : v.reverse.dropWhile pyIsSpace = v.reverse := by
    cases hv : v.reverse with
    | nil => simp [hv]
    | cons c z => exact dropWhile_cons_of_false (hlast c z hv)
  rw [h2, List.reverse_reverse]

theorem startsWith_cons {c : Char} {pre s : Str} (h : startsWithS (c :: pre) s = true) :
    ∃ z, s = c :: z := by
  cases s with
  | nil => simp [startsWithS, List.isPrefixOf] at h
  | cons b z =>
    simp only [startsWithS, List.isPrefixOf, Bool.and_eq_true, beq_iff_eq] at h
    exact ⟨z, by rw [h.1]⟩

theorem startsWithS_append (p x : Str) : startsWithS p (p ++ x) = true := by
  induction p with
  | nil => simp [startsWithS, List.isPrefixOf]
  | cons c cs ih =>
    simp only [startsWithS, List.isPrefixOf, List.cons_append, Bool.and_eq_true, beq_self_eq_true, true_and]
    exact ih

theorem ensureScheme_cons (s : Str) : ∃ z, ensureScheme s = 'h' :: z := by
  unfold ensureScheme
  by_cases h1 : startsWithS "www.".data s
  · rw [if_pos h1]
    exact ⟨"ttps://".data ++ s, rfl⟩
  · rw [if_neg h1]
    by_cases h2 : startsWithS "http://".data s || startsWithS "https://".data s
    · rw [if_pos h2]
      rcases Bool.or_eq_true_iff.mp h2 with h3 | h3
      · exact @startsWith_cons 'h' "ttp://".data s h3
      · exact @startsWith_cons 'h' "ttps://".data s h3
    · rw [if_neg h2]
      exact ⟨"ttps://".data ++ s, rfl⟩

theorem ensureScheme_starts (s : Str) :
    (startsWithS "http://".data (ensureScheme s) ||
     startsWithS "https://".data (ensureScheme s)) = true := by
  unfold ensureScheme
  by_cases h1 : startsWithS "www.".data s
  · rw [if_pos h1, startsWithS_append, Bool.or_true]
  · rw [if_neg h1]
    by_cases h2 : startsWithS "http://".data s || startsWithS "https://".data s
    · rw [if_pos h2]
      exact h2
    · rw [if_neg h2, startsWithS_append, Bool.or_true]

theorem ensureScheme_of_http (v : Str)
    (h : (startsWithS "http://".data v || startsWithS "https://".data v) = true)
    (hv : ∃ z, v = 'h' :: z) :
    ensureScheme v = v := by
  obtain ⟨z, rfl⟩ := hv
  have hw : startsWithS "www.".data ('h' :: z) = false := rfl
  unfold ensureScheme
  rw [if_neg (by simp [hw]), if_pos h]

theorem ensureScheme_idem (s : Str) : ensureScheme (ensureScheme s) = ensureScheme s :=
  ensureScheme_of_http (ensureScheme s) (ensureScheme_starts s) (ensureScheme_cons s)

theorem ensureScheme_strip_fix (t : Str) :
    pyStrip (ensureScheme (pyStrip t)) = ensureScheme (pyStrip t) := by
  have hlastS : ∀ c z, (pyStrip t).reverse = c :: z → pyIsSpace c = false := by
    intro c z h0
    exact head_dropWhile_false (by rw [← pyStrip_reverse_eq]; exact h0)
  apply pyStrip_of_stripped
  · intro c z hv
    obtain ⟨z', hz'⟩ := ensureScheme_cons (pyStrip t)
    rw [hz'] at hv
    obtain ⟨rfl, -⟩ := List.cons.inj hv.symm
    decide
  · intro c z hv
    unfold ensureScheme at hv
    split at hv
    · rw [List.reverse_append] at hv
      cases hrev : (pyStrip t).reverse with
      | nil =>
        rw [hrev, List.nil_append] at hv
        rw [show ("https://".data : Str).reverse =
          ['/', '/', ':', 's', 'p', 't', 't', 'h'] from rfl] at hv
        obtain ⟨rfl, -⟩ := List.cons.inj hv
        decide
      | cons c0 z0 =>
        rw [hrev] at hv
        obtain ⟨rfl, -⟩ := List.cons.inj (by simpa using hv)
        exact hlastS c0 z0 hrev
    · split at hv
      · exact hlastS c z hv
      · rw [List.reverse_append] at hv
        cases hrev : (pyStrip t).reverse with
        | nil =>
          rw [hrev, List.nil_append] at hv
          rw [show ("https://".data : Str).reverse =
            ['/', '/', ':', 's', 'p', 't', 't', 'h'] from rfl] at hv
          obtain ⟨rfl, -⟩ := List.cons.inj hv
          decide
        | cons c0 z0 =>
          rw [hrev] at hv
          obtain ⟨rfl, -⟩ := List.cons.inj (by simpa using hv)
          exact hlastS c0 z0 hrev

theorem c7_clean_website_idem (u v : Str)
    (h : clean_website_url u = some v)
    (hm : containsS redirectMarker v = false) :
    clean_website_url v = some v := by
  unfold clean_website_url at h
  cases h1 : unwrapRedirect u with
  | none => rw [h1] at h; cases h
  | some u1 =>
    rw [h1] at h
    simp only [] at h
    by_cases hg : websiteGuard (ensureScheme (pyStrip u1))
    · rw [if_pos hg] at h
      obtain rfl := Option.some.inj h
      have hu : unwrapRedirect (ensureScheme (pyStrip u1)) =
          some (ensureScheme (pyStrip u1)) := by
        unfold unwrapRedirect
        rw [hm]
        simp
      unfold clean_website_url
      rw [hu]
      simp only []
      rw [ensureScheme_strip_fix u1, ensureScheme_idem (pyStrip u1), if_pos hg]
    · rw [if_neg hg] at h; cases h

theorem c7_not_idempotent :
    clean_website_url doubleWrapped = some doubleWrappedOut ∧
    containsS redirectMarker doubleWrappedOut = true ∧
    clean_website_url doubleWrappedOut = some "https://evil.com".data ∧
    doubleWrappedOut ≠ "https://evil.com".data := by decide

theorem c7_clean_website_idem_witness :
    clean_website_url simpleWrapped = some simpleWrappedOut ∧
    containsS redirectMarker simpleWrappedOut = false ∧
    clean_website_url simpleWrappedOut = some simpleWrappedOut :=
  ⟨by decide, by decide,
   c7_clean_website_idem simpleWrapped simpleWrappedOut (by decide) (by decide)⟩
